import Mathlib

/-!
# Rate limiter: reservation engine

A shallow embedding of `internal/ratelimiter/ratelimiter.go`, of the
configuration records of `internal/config/config.go` and of the HTTP handler of
`internal/handlers/reserve.go`.

* Go's `int` is a 64-bit two's-complement integer.  Values are carried as `Int`
  and every `+` and `-` of the source goes through `intWrap`.
* `time.Time` is a number of nanoseconds; each `time.Now()` / `time.Since` of the
  source is a clock reading passed in by the caller.
* `map[string]*EndpointState` is a finite map given by its lookup function; every
  key owns the record that `New` allocated for it, so writing through the pointer
  is an update of the map at that key.
* The mutexes serialise the calls; the embedding is the serial semantics.
* `processReservation` only prints the reservation, it is not modelled.
* Of the `fiber` context the handler uses the body parser, whose outcome is an argument
  of `Handle`, and the response it sends, which is the result of `Handle`.
-/

namespace ratelimiter

/-! ## Machine integers and time -/

/-- Two's-complement wrap of a mathematical integer into the range of Go's 64-bit `int`. -/
def intWrap (x : Int) : Int :=
  (x + 9223372036854775808) % 18446744073709551616 - 9223372036854775808

/-- Go's `a + b` on `int`. -/
def intAdd (a b : Int) : Int := intWrap (a + b)

/-- Go's `a - b` on `int`. -/
def intSub (a b : Int) : Int := intWrap (a - b)

/-- The values a Go `int` can hold. -/
def isInt (x : Int) : Prop := -9223372036854775808 ≤ x ∧ x ≤ 9223372036854775807

instance (x : Int) : Decidable (isInt x) := by
  unfold isInt; exact inferInstance

/-- The constant `time.Minute`, in nanoseconds. -/
def Minute : Int := 60000000000

/-! ## Configuration records (`internal/config/config.go`) -/

/-- Configuration for a specific endpoint. -/
structure EndpointConfig where
  Path : String
  RPM : Int
  TPM : Int
  deriving DecidableEq, Repr

/-- Rate limiting configuration for an API key. -/
structure RateLimit where
  APIKey : String
  Endpoints : List EndpointConfig
  deriving DecidableEq, Repr

/-! ## Limiter state (`internal/ratelimiter/ratelimiter.go`) -/

/-- The state of an endpoint (the mutex is not part of the serial state). -/
structure EndpointState where
  Path : String
  RPM : Int
  TPM : Int
  LastRequest : Int
  RequestCount : Int
  deriving DecidableEq, Repr

/-- A rate limit reservation response. -/
structure Reservation where
  Allowed : Bool
  ReservedTokens : Int
  ReservedRequests : Int
  RemainingTokens : Int
  RemainingRequests : Int
  TargetEndpointPath : String
  deriving DecidableEq, Repr

/-- The limiter: the map `apiKeyLimits` from lookup key to endpoint state. -/
structure RateLimiter where
  apiKeyLimits : String → Option EndpointState

/-- The map key `fmt.Sprintf("%s-%s", apiKey, path)`. -/
def limitKey (apiKey path : String) : String := apiKey ++ "-" ++ path

/-- The map assignment `m[key] = state`. -/
def mapSet (m : String → Option EndpointState) (key : String) (state : EndpointState) :
    String → Option EndpointState :=
  fun k => if k = key then some state else m k

/-- Inner loop of `New`: one entry per endpoint of `rateLimit`, each stamped with
its own clock reading; the first component counts the readings taken so far. -/
def New.endpoints (clock : Nat → Int) (apiKey : String) :
    List EndpointConfig → Nat × (String → Option EndpointState) →
      Nat × (String → Option EndpointState)
  | [], acc => acc
  | endpoint :: rest, acc =>
      New.endpoints clock apiKey rest
        (acc.1 + 1,
          mapSet acc.2 (limitKey apiKey endpoint.Path)
            { Path := endpoint.Path
              RPM := endpoint.RPM
              TPM := endpoint.TPM
              LastRequest := clock acc.1
              RequestCount := 0 })

/-- Outer loop of `New` over the configured rate limits. -/
def New.rateLimits (clock : Nat → Int) :
    List RateLimit → Nat × (String → Option EndpointState) →
      Nat × (String → Option EndpointState)
  | [], acc => acc
  | rateLimit :: rest, acc =>
      New.rateLimits clock rest (New.endpoints clock rateLimit.APIKey rateLimit.Endpoints acc)

/-- `New` creates a limiter from the configured rate limits; `clock i` is the
`i`-th reading of `time.Now()` during construction. -/
def New (rateLimits : List RateLimit) (clock : Nat → Int) : RateLimiter :=
  { apiKeyLimits := (New.rateLimits clock rateLimits (0, fun _ => none)).2 }

/-- `Reserve` attempts to reserve capacity for requests and tokens.  `now` is the
clock reading of `time.Since(state.LastRequest)`, `stamp` the later reading of
`time.Now()` stored on admission.  Returns the limiter after the call and the
reservation. -/
def RateLimiter.Reserve (rl : RateLimiter) (now stamp : Int) (clientID : String)
    (tokens requests : Int) (apiKey targetEndpoint : String) : RateLimiter × Reservation :=
  let _ := clientID
  let key := limitKey apiKey targetEndpoint
  match rl.apiKeyLimits key with
  | none =>
      (rl,
        { Allowed := false
          ReservedTokens := 0
          ReservedRequests := 0
          RemainingTokens := 0
          RemainingRequests := 0
          TargetEndpointPath := "" })
  | some state =>
      -- Reset counters if a minute has passed
      let state1 : EndpointState :=
        if now - state.LastRequest ≥ Minute then { state with RequestCount := 0 } else state
      -- Check if the reservation would exceed limits
      if intAdd state1.RequestCount requests > state1.RPM ∨ tokens > state1.TPM then
        ({ apiKeyLimits := mapSet rl.apiKeyLimits key state1 },
          { Allowed := false
            ReservedTokens := 0
            ReservedRequests := 0
            RemainingTokens := intSub state1.TPM tokens
            RemainingRequests := intSub state1.RPM state1.RequestCount
            TargetEndpointPath := "" })
      else
        -- Update state
        let state2 : EndpointState :=
          { state1 with
            RequestCount := intAdd state1.RequestCount requests
            LastRequest := stamp }
        ({ apiKeyLimits := mapSet rl.apiKeyLimits key state2 },
          { Allowed := true
            ReservedTokens := tokens
            ReservedRequests := requests
            RemainingTokens := intSub state2.TPM tokens
            RemainingRequests := intSub state2.RPM state2.RequestCount
            TargetEndpointPath := targetEndpoint })

/-! ## The HTTP handler (`internal/handlers/reserve.go`) -/

/-- The constant `fiber.StatusOK`. -/
def StatusOK : Int := 200

/-- The constant `fiber.StatusBadRequest`. -/
def StatusBadRequest : Int := 400

/-- The constant `fiber.StatusTooManyRequests`. -/
def StatusTooManyRequests : Int := 429

/-- The constant `fiber.StatusInternalServerError`. -/
def StatusInternalServerError : Int := 500

/-- The incoming request structure. -/
structure ReserveRequest where
  ClientID : String
  Tokens : Int
  Requests : Int
  APIKey : String
  TargetEndpoint : String
  deriving DecidableEq, Repr

/-- The field `Status` of both response structures. -/
structure ResponseStatus where
  Code : Int
  Message : String
  deriving DecidableEq, Repr

/-- The field `Data` of `ReserveResponse`. -/
structure ResponseData where
  Allowed : Bool
  ReservedTokens : Int
  ReservedRequests : Int
  RemainingTokens : Int
  RemainingRequests : Int
  TargetEndpointPath : String
  deriving DecidableEq, Repr

/-- The API response structure. -/
structure ReserveResponse where
  Status : ResponseStatus
  Data : ResponseData
  deriving DecidableEq, Repr

/-- The error response structure. -/
structure ErrorResponse where
  Status : ResponseStatus
  Error : String
  deriving DecidableEq, Repr

/-- The value of type `*fiber.Error` built by `fiber.NewError(code, message)`; its method
`Error()` returns `Message`. -/
structure FiberError where
  Code : Int
  Message : String
  deriving DecidableEq, Repr

/-- The values passed as `data interface{}` to `sendJSONResponse`. -/
inductive Payload where
  | reserve (response : ReserveResponse)
  | failure (response : ErrorResponse)
  deriving DecidableEq, Repr

/-- The body of an HTTP response: the JSON document of a payload, or a plain string. -/
inductive Body where
  | json (data : Payload)
  | text (s : String)
  deriving DecidableEq, Repr

/-- What the handler sends: the HTTP status and the body. -/
structure HTTPResponse where
  status : Int
  body : Body
  deriving DecidableEq, Repr

/-- The library function `json.MarshalIndent` on the two response structures. Their
fields are booleans, integers and strings, on which the encoder has no error case; the
JSON document is identified with the record it encodes. -/
def marshalIndent (data : Payload) : Except String Payload := Except.ok data

/-- `sendJSONResponse` sends a JSON response with the given status, or status 500 with a
plain string when the encoding fails. -/
def sendJSONResponse (status : Int) (data : Payload) : HTTPResponse :=
  match marshalIndent data with
  | Except.error _ =>
      { status := StatusInternalServerError, body := Body.text "Internal Server Error" }
  | Except.ok jsonData => { status := status, body := Body.json jsonData }

/-- The handler of rate limit reservation requests: it holds the limiter. -/
structure ReserveHandler where
  limiter : RateLimiter

/-- `NewReserveHandler` creates a new handler instance. -/
def NewReserveHandler (limiter : RateLimiter) : ReserveHandler := { limiter := limiter }

/-- `validateRequest` performs basic validation on the request; `none` is Go's `nil`. -/
def ReserveHandler.validateRequest (_h : ReserveHandler) (request : ReserveRequest) :
    Option FiberError :=
  if request.ClientID = "" then
    some { Code := StatusBadRequest, Message := "ClientID is required" }
  else if request.APIKey = "" then
    some { Code := StatusBadRequest, Message := "APIKey is required" }
  else if request.TargetEndpoint = "" then
    some { Code := StatusBadRequest, Message := "TargetEndpoint is required" }
  else if request.Tokens < 0 then
    some { Code := StatusBadRequest, Message := "Tokens must be non-negative" }
  else if request.Requests < 0 then
    some { Code := StatusBadRequest, Message := "Requests must be non-negative" }
  else
    none

/-- `Handle` processes the reservation request. `parsed` is the outcome of
`c.BodyParser(&request)`: `none` when it returns an error, the decoded request otherwise.
`now` and `stamp` are the clock readings of the call of `Reserve`. Returns the handler
after the call (its limiter is updated in place) and the response sent. -/
def ReserveHandler.Handle (h : ReserveHandler) (parsed : Option ReserveRequest)
    (now stamp : Int) : ReserveHandler × HTTPResponse :=
  match parsed with
  | none =>
      (h,
        sendJSONResponse StatusBadRequest
          (Payload.failure
            { Status := { Code := StatusBadRequest, Message := "Error" }
              Error := "Invalid request format" }))
  | some request =>
      -- Validate request
      match h.validateRequest request with
      | some err =>
          (h,
            sendJSONResponse StatusBadRequest
              (Payload.failure
                { Status := { Code := StatusBadRequest, Message := "Error" }
                  Error := err.Message }))
      | none =>
          -- Process reservation
          let out :=
            h.limiter.Reserve now stamp request.ClientID request.Tokens request.Requests
              request.APIKey request.TargetEndpoint
          let reservation := out.2
          let response : ReserveResponse :=
            { Status := { Code := StatusOK, Message := "Success" }
              Data :=
                { Allowed := reservation.Allowed
                  ReservedTokens := reservation.ReservedTokens
                  ReservedRequests := reservation.ReservedRequests
                  RemainingTokens := reservation.RemainingTokens
                  RemainingRequests := reservation.RemainingRequests
                  TargetEndpointPath := reservation.TargetEndpointPath } }
          if !reservation.Allowed then
            ({ limiter := out.1 },
              sendJSONResponse StatusTooManyRequests
                (Payload.reserve
                  { response with
                    Status :=
                      { Code := StatusTooManyRequests, Message := "Rate limit exceeded" } }))
          else
            ({ limiter := out.1 }, sendJSONResponse StatusOK (Payload.reserve response))

/-! ## Vocabulary of the statements -/

/-- The request count after the reset step of `Reserve`: `0` once a minute has
passed since `LastRequest`, the stored count otherwise. -/
def resetCount (state : EndpointState) (now : Int) : Int :=
  if now - state.LastRequest ≥ Minute then 0 else state.RequestCount

/-- The endpoint state stored under the key of `(apiKey, path)`, if any. -/
def RateLimiter.stateOf (rl : RateLimiter) (apiKey path : String) : Option EndpointState :=
  rl.apiKeyLimits (limitKey apiKey path)

/-- The `(APIKey, Path)` pairs of a configuration, in configuration order. -/
def configured (rateLimits : List RateLimit) : List (String × String) :=
  rateLimits.flatMap (fun rateLimit => rateLimit.Endpoints.map (fun e => (rateLimit.APIKey, e.Path)))

/-- The configured endpoints with their API key, in configuration order: entries in
order, endpoints in order within an entry. -/
def entries (rateLimits : List RateLimit) : List (String × EndpointConfig) :=
  rateLimits.flatMap (fun rateLimit => rateLimit.Endpoints.map (fun e => (rateLimit.APIKey, e)))

/-- The last occurrence of the identity `(apiKey, path)` in configuration order, if it
occurs at all. -/
def lastOccurrence (rateLimits : List RateLimit) (apiKey path : String) :
    Option EndpointConfig :=
  ((entries rateLimits).reverse.find?
    (fun x => decide (x.1 = apiKey ∧ x.2.Path = path))).map Prod.snd

/-- The fields of an endpoint state that `New` takes from the configuration, with the
count: `(Path, RPM, TPM, RequestCount)`. -/
def quotaOf (state : EndpointState) : String × Int × Int × Int :=
  (state.Path, state.RPM, state.TPM, state.RequestCount)

/-- What `New` is to store for a configured endpoint: its path and limits, count 0. -/
def freshQuota (e : EndpointConfig) : String × Int × Int × Int :=
  (e.Path, e.RPM, e.TPM, 0)

/-- One call of `Reserve` with its two clock readings. -/
structure Call where
  now : Int
  stamp : Int
  clientID : String
  tokens : Int
  requests : Int
  apiKey : String
  targetEndpoint : String
  deriving DecidableEq, Repr

/-- The call `c` applied to the limiter. -/
def RateLimiter.call (rl : RateLimiter) (c : Call) : RateLimiter × Reservation :=
  rl.Reserve c.now c.stamp c.clientID c.tokens c.requests c.apiKey c.targetEndpoint

/-- A serial run of calls: the final limiter and the reservations in call order. -/
def RateLimiter.run (rl : RateLimiter) : List Call → RateLimiter × List Reservation
  | [] => (rl, [])
  | c :: cs =>
      let r := rl.call c
      let rest := RateLimiter.run r.1 cs
      (rest.1, r.2 :: rest.2)

/-- A limiter holding the single state `state` under the key of `(apiKey, path)`. -/
def single (apiKey path : String) (state : EndpointState) : RateLimiter :=
  { apiKeyLimits := mapSet (fun _ => none) (limitKey apiKey path) state }

/-! ## Sample data used to instantiate the theorems -/

/-- The configuration of the repository's tests: one key, one endpoint, rpm 10, tpm 100. -/
def sampleConfig : List RateLimit :=
  [{ APIKey := "API_KEY_1", Endpoints := [{ Path := "/test", RPM := 10, TPM := 100 }] }]

/-- An endpoint state in the middle of a window: 5 of 10 requests used, window stamped at 0. -/
def sampleState : EndpointState :=
  { Path := "/test", RPM := 10, TPM := 100, LastRequest := 0, RequestCount := 5 }

/-- A limiter holding `sampleState` for `("API_KEY_1", "/test")`. -/
def sampleLimiter : RateLimiter := single "API_KEY_1" "/test" sampleState

/-- A clock that always reads 0. -/
def zeroClock : Nat → Int := fun _ => 0

/-- A configuration whose API key contains the separator of the lookup key. -/
def hyphenConfig : List RateLimit :=
  [{ APIKey := "API-KEY", Endpoints := [{ Path := "/test", RPM := 10, TPM := 100 }] }]

/-- The identity that `hyphenConfig` configures. -/
def hyphenPair : String × String := ("API-KEY", "/test")

/-- The pair that `hyphenConfig` does not configure: the key is cut at its hyphen and
the rest of it moves in front of the path. -/
def foreignPair : String × String := ("API", "KEY-/test")

/-- Two distinct identities with different quotas: the one of `hyphenConfig` and
`foreignPair`. -/
def sharedKeyConfig : List RateLimit :=
  [{ APIKey := "API-KEY", Endpoints := [{ Path := "/test", RPM := 10, TPM := 100 }] },
   { APIKey := "API", Endpoints := [{ Path := "KEY-/test", RPM := 5, TPM := 50 }] }]

/-- Two calls that both pass request validation: one request, then the largest `int`. -/
def wrapCalls : List Call :=
  [{ now := 0, stamp := 0, clientID := "client1", tokens := 0, requests := 1,
     apiKey := "API_KEY_1", targetEndpoint := "/test" },
   { now := 0, stamp := 0, clientID := "client1", tokens := 0,
     requests := 9223372036854775807, apiKey := "API_KEY_1", targetEndpoint := "/test" }]

/-- The three calls of the scenario on quota rpm 10, tpm 100, one second apart. -/
def scenarioCalls : List Call :=
  [{ now := 0, stamp := 1, clientID := "client1", tokens := 50, requests := 5,
     apiKey := "API_KEY_1", targetEndpoint := "/test" },
   { now := 1000000000, stamp := 1000000001, clientID := "client1", tokens := 101,
     requests := 1, apiKey := "API_KEY_1", targetEndpoint := "/test" },
   { now := 2000000000, stamp := 2000000001, clientID := "client1", tokens := 10,
     requests := 6, apiKey := "API_KEY_1", targetEndpoint := "/test" }]

/-- The state `New` stores for the identity of `sampleConfig` under `zeroClock`. -/
def freshState : EndpointState :=
  { Path := "/test", RPM := 10, TPM := 100, LastRequest := 0, RequestCount := 0 }

/-- A handler on `sampleLimiter`. -/
def sampleHandler : ReserveHandler := NewReserveHandler sampleLimiter

/-- A request that passes validation and fits the quota left in `sampleState`. -/
def validRequest : ReserveRequest :=
  { ClientID := "test-client", Tokens := 5, Requests := 1, APIKey := "API_KEY_1",
    TargetEndpoint := "/test" }

/-- A request without client ID whose other fields fail validation as well. -/
def anonymousRequest : ReserveRequest :=
  { ClientID := "", Tokens := -5, Requests := -1, APIKey := "", TargetEndpoint := "" }

/-- A request with a negative number of tokens and nothing else wrong. -/
def negativeRequest : ReserveRequest :=
  { ClientID := "test-client", Tokens := -5, Requests := 1, APIKey := "API_KEY_1",
    TargetEndpoint := "/test" }

/-- A request that passes validation and asks for the largest `int` of requests. -/
def hugeRequest : ReserveRequest :=
  { ClientID := "test-client", Tokens := 0, Requests := 9223372036854775807,
    APIKey := "API_KEY_1", TargetEndpoint := "/test" }

/-! ## Basic facts -/

theorem intWrap_of_isInt (x : Int) (h : isInt x) : intWrap x = x := by
  unfold isInt at h
  unfold intWrap
  omega

theorem intAdd_zero_left (x : Int) (h : isInt x) : intAdd 0 x = x := by
  unfold intAdd
  rw [Int.zero_add]
  exact intWrap_of_isInt x h

theorem mapSet_same (m : String → Option EndpointState) (key : String) (state : EndpointState) :
    mapSet m key state key = some state := by
  simp [mapSet]

theorem mapSet_other (m : String → Option EndpointState) (key k : String) (state : EndpointState)
    (hk : k ≠ key) : mapSet m key state k = m k := by
  simp [mapSet, hk]

theorem stateOf_Reserve_same (rl : RateLimiter) (apiKey path : String) (state : EndpointState) :
    RateLimiter.stateOf { apiKeyLimits := mapSet rl.apiKeyLimits (limitKey apiKey path) state }
      apiKey path = some state := by
  unfold RateLimiter.stateOf
  exact mapSet_same _ _ _

theorem resetCount_of_fresh (state : EndpointState) (now : Int)
    (hfresh : now - state.LastRequest < Minute) :
    resetCount state now = state.RequestCount := by
  have hnot : ¬ (now - state.LastRequest ≥ Minute) := by omega
  simp [resetCount, hnot]

theorem resetCount_of_zero (state : EndpointState) (now : Int)
    (hzero : state.RequestCount = 0) : resetCount state now = 0 := by
  unfold resetCount
  split_ifs
  · rfl
  · exact hzero

/-- On a key that is not in the map, `Reserve` changes nothing and returns the zero
reservation. -/
theorem Reserve_of_none (rl : RateLimiter) (now stamp : Int) (clientID : String)
    (tokens requests : Int) (apiKey targetEndpoint : String)
    (h : rl.stateOf apiKey targetEndpoint = none) :
    rl.Reserve now stamp clientID tokens requests apiKey targetEndpoint =
      (rl,
        { Allowed := false
          ReservedTokens := 0
          ReservedRequests := 0
          RemainingTokens := 0
          RemainingRequests := 0
          TargetEndpointPath := "" }) := by
  unfold RateLimiter.stateOf at h
  unfold RateLimiter.Reserve
  simp only [h]

/-- On a key that holds `state`, `Reserve` is the admission test on the post-reset
count followed by one of the two updates. -/
theorem Reserve_of_state (rl : RateLimiter) (now stamp : Int) (clientID : String)
    (tokens requests : Int) (apiKey targetEndpoint : String) (state : EndpointState)
    (h : rl.stateOf apiKey targetEndpoint = some state) :
    rl.Reserve now stamp clientID tokens requests apiKey targetEndpoint =
      if intAdd (resetCount state now) requests ≤ state.RPM ∧ tokens ≤ state.TPM then
        ({ apiKeyLimits := mapSet rl.apiKeyLimits (limitKey apiKey targetEndpoint)
              { state with
                RequestCount := intAdd (resetCount state now) requests
                LastRequest := stamp } },
          { Allowed := true
            ReservedTokens := tokens
            ReservedRequests := requests
            RemainingTokens := intSub state.TPM tokens
            RemainingRequests := intSub state.RPM (intAdd (resetCount state now) requests)
            TargetEndpointPath := targetEndpoint })
      else
        ({ apiKeyLimits := mapSet rl.apiKeyLimits (limitKey apiKey targetEndpoint)
              { state with RequestCount := resetCount state now } },
          { Allowed := false
            ReservedTokens := 0
            ReservedRequests := 0
            RemainingTokens := intSub state.TPM tokens
            RemainingRequests := intSub state.RPM (resetCount state now)
            TargetEndpointPath := "" }) := by
  unfold RateLimiter.stateOf at h
  unfold RateLimiter.Reserve resetCount
  simp only [h]
  by_cases hexp : now - state.LastRequest ≥ Minute
  · by_cases hadm : intAdd 0 requests ≤ state.RPM ∧ tokens ≤ state.TPM
    · have hno : ¬ (intAdd 0 requests > state.RPM ∨ tokens > state.TPM) := by omega
      simp [hexp, hadm, hno]
    · have hyes : intAdd 0 requests > state.RPM ∨ tokens > state.TPM := by omega
      simp [hexp, hadm, hyes]
  · by_cases hadm : intAdd state.RequestCount requests ≤ state.RPM ∧ tokens ≤ state.TPM
    · have hno : ¬ (intAdd state.RequestCount requests > state.RPM ∨ tokens > state.TPM) := by
        omega
      simp [hexp, hadm, hno]
    · have hyes : intAdd state.RequestCount requests > state.RPM ∨ tokens > state.TPM := by
        omega
      simp [hexp, hadm, hyes]

/-! ## C1: the admission decision -/

/-- The admission decision in the arithmetic of the source: for a configured identity
holding any `state`, `Reserve` returns `Allowed = true` exactly when the wrap-around sum
`intAdd` of the post-reset count and `requests` is at most `RPM` and `tokens` is at most
`TPM`. -/
theorem Reserve_allowed_iff (rl : RateLimiter) (now stamp : Int) (clientID : String)
    (tokens requests : Int) (apiKey targetEndpoint : String) (state : EndpointState)
    (h : rl.stateOf apiKey targetEndpoint = some state) :
    (rl.Reserve now stamp clientID tokens requests apiKey targetEndpoint).2.Allowed = true ↔
      intAdd (resetCount state now) requests ≤ state.RPM ∧ tokens ≤ state.TPM := by
  rw [Reserve_of_state rl now stamp clientID tokens requests apiKey targetEndpoint state h]
  by_cases hadm : intAdd (resetCount state now) requests ≤ state.RPM ∧ tokens ≤ state.TPM
  · simp [hadm]
  · simp [hadm]

/-- The decision in the arithmetic of the source on the sample limiter: 5 used, 5 more
requested, 50 tokens. -/
theorem Reserve_allowed_iff_witness :
    sampleLimiter.stateOf "API_KEY_1" "/test" = some sampleState ∧
      ((sampleLimiter.Reserve 1 2 "client1" 50 5 "API_KEY_1" "/test").2.Allowed = true ↔
        intAdd (resetCount sampleState 1) 5 ≤ sampleState.RPM ∧ 50 ≤ sampleState.TPM) :=
  ⟨by decide,
    Reserve_allowed_iff sampleLimiter 1 2 "client1" 50 5 "API_KEY_1" "/test" sampleState
      (by decide)⟩

/-- The admission decision over the integers, where the code delivers it: when the
mathematical sum of the post-reset count and `requests` fits an `int`, `Reserve` returns
`Allowed = true` exactly when that sum is at most `RPM` and `tokens` is at most `TPM`. -/
theorem Reserve_allowed_iff_of_fit (rl : RateLimiter) (now stamp : Int) (clientID : String)
    (tokens requests : Int) (apiKey targetEndpoint : String) (state : EndpointState)
    (h : rl.stateOf apiKey targetEndpoint = some state)
    (hfit : isInt (resetCount state now + requests)) :
    (rl.Reserve now stamp clientID tokens requests apiKey targetEndpoint).2.Allowed = true ↔
      resetCount state now + requests ≤ state.RPM ∧ tokens ≤ state.TPM := by
  have hsum : intAdd (resetCount state now) requests = resetCount state now + requests :=
    intWrap_of_isInt _ hfit
  rw [Reserve_of_state rl now stamp clientID tokens requests apiKey targetEndpoint state h,
    hsum]
  by_cases hadm : resetCount state now + requests ≤ state.RPM ∧ tokens ≤ state.TPM
  · simp [hadm]
  · simp [hadm]

/-- C1, evaluated at a failing input. On `sampleState` (post-reset count 5, rpm 10,
tpm 100) the call `Reserve(tokens=0, requests=2^63-1)` returns `Allowed = true` although
the post-reset count plus `requests` is `2^63 + 4`, far above rpm: the sum of the
admission check wraps to `-2^63 + 4`. -/
theorem Reserve_admits_above_RPM :
    (sampleLimiter.stateOf "API_KEY_1" "/test" = some sampleState ∧
      resetCount sampleState 1 = 5 ∧ sampleState.RPM = 10 ∧ sampleState.TPM = 100) ∧
    (sampleLimiter.Reserve 1 2 "test-client" 0 9223372036854775807 "API_KEY_1"
        "/test").2.Allowed = true ∧
    resetCount sampleState 1 + 9223372036854775807 = 9223372036854775812 ∧
    ¬ (resetCount sampleState 1 + 9223372036854775807 ≤ sampleState.RPM ∧
        (0 : Int) ≤ sampleState.TPM) := by
  decide

/-! ## C2: identities that are not configured -/

theorem New.endpoints_other (clock : Nat → Int) (apiKey : String) (k : String) :
    ∀ (endpoints : List EndpointConfig) (acc : Nat × (String → Option EndpointState)),
      (∀ e ∈ endpoints, k ≠ limitKey apiKey e.Path) →
        (New.endpoints clock apiKey endpoints acc).2 k = acc.2 k := by
  intro endpoints
  induction endpoints with
  | nil => intro acc _; rfl
  | cons e rest ih =>
      intro acc hk
      have hrest : ∀ x ∈ rest, k ≠ limitKey apiKey x.Path :=
        fun x hx => hk x (List.mem_cons_of_mem e hx)
      rw [New.endpoints, ih _ hrest]
      exact mapSet_other _ _ _ _ (hk e (List.mem_cons_self e rest))

theorem New.rateLimits_other (clock : Nat → Int) (k : String) :
    ∀ (rateLimits : List RateLimit) (acc : Nat × (String → Option EndpointState)),
      (∀ p ∈ configured rateLimits, k ≠ limitKey p.1 p.2) →
        (New.rateLimits clock rateLimits acc).2 k = acc.2 k := by
  intro rateLimits
  induction rateLimits with
  | nil => intro acc _; rfl
  | cons r rest ih =>
      intro acc hk
      have hrest : ∀ p ∈ configured rest, k ≠ limitKey p.1 p.2 := by
        intro p hp
        apply hk p
        simp only [configured, List.flatMap_cons, List.mem_append]
        exact Or.inr hp
      have hhead : ∀ e ∈ r.Endpoints, k ≠ limitKey r.APIKey e.Path := by
        intro e he
        apply hk (r.APIKey, e.Path)
        simp only [configured, List.flatMap_cons, List.mem_append, List.mem_map]
        exact Or.inl ⟨e, he, rfl⟩
      rw [New.rateLimits, ih _ hrest]
      exact New.endpoints_other clock r.APIKey k r.Endpoints acc hhead

/-- The part of deny-by-default that the code does deliver: a pair whose lookup key is
the key of no configured endpoint gets the zero reservation and leaves the limiter alone. -/
theorem Reserve_unknown_key_denied (rateLimits : List RateLimit) (clock : Nat → Int)
    (now stamp : Int) (clientID : String) (tokens requests : Int)
    (apiKey targetEndpoint : String)
    (hkey : ∀ p ∈ configured rateLimits, limitKey apiKey targetEndpoint ≠ limitKey p.1 p.2) :
    ((New rateLimits clock).Reserve now stamp clientID tokens requests apiKey
        targetEndpoint).2 =
      { Allowed := false
        ReservedTokens := 0
        ReservedRequests := 0
        RemainingTokens := 0
        RemainingRequests := 0
        TargetEndpointPath := "" } := by
  have hnone : (New rateLimits clock).stateOf apiKey targetEndpoint = none := by
    unfold RateLimiter.stateOf New
    exact New.rateLimits_other clock _ rateLimits _ hkey
  rw [Reserve_of_none _ now stamp clientID tokens requests apiKey targetEndpoint hnone]

/-- C2, evaluated at a failing input. With the single configured identity of
`hyphenConfig` (key `API-KEY`, path `/test`), the pair `foreignPair` is the
`(APIKey, Path)` of no configured endpoint, yet it builds the same lookup key and
`Reserve` admits it with non-zero fields instead of returning the zero reservation. -/
theorem Reserve_unconfigured_pair_admitted :
    foreignPair ∉ configured hyphenConfig ∧
      ((New hyphenConfig zeroClock).Reserve 0 0 "client1" 50 5 foreignPair.1 foreignPair.2).2 =
        { Allowed := true
          ReservedTokens := 50
          ReservedRequests := 5
          RemainingTokens := 50
          RemainingRequests := 5
          TargetEndpointPath := "KEY-/test" } := by
  decide

/-! ## C3: postcondition of an admitted call -/

/-- The admitted call in the arithmetic of the source: whenever `Reserve` returns
`Allowed = true` for a configured identity, the stored `RequestCount` afterwards is the
wrap-around sum `intAdd` of the post-reset count and `requests`, and the reservation
carries `tokens`, `requests`, the wrap-around differences `intSub TPM tokens` and
`intSub RPM RequestCount` (the count after the increment) and the endpoint path. -/
theorem Reserve_admitted_post (rl : RateLimiter) (now stamp : Int) (clientID : String)
    (tokens requests : Int) (apiKey targetEndpoint : String) (state : EndpointState)
    (h : rl.stateOf apiKey targetEndpoint = some state)
    (hallowed :
      (rl.Reserve now stamp clientID tokens requests apiKey targetEndpoint).2.Allowed = true) :
    ∃ after : EndpointState,
      (rl.Reserve now stamp clientID tokens requests apiKey targetEndpoint).1.stateOf
          apiKey targetEndpoint = some after ∧
      after.RequestCount = intAdd (resetCount state now) requests ∧
      (rl.Reserve now stamp clientID tokens requests apiKey targetEndpoint).2 =
        { Allowed := true
          ReservedTokens := tokens
          ReservedRequests := requests
          RemainingTokens := intSub state.TPM tokens
          RemainingRequests := intSub state.RPM after.RequestCount
          TargetEndpointPath := targetEndpoint } := by
  rw [Reserve_of_state rl now stamp clientID tokens requests apiKey targetEndpoint state h]
    at hallowed ⊢
  by_cases hadm : intAdd (resetCount state now) requests ≤ state.RPM ∧ tokens ≤ state.TPM
  · rw [if_pos hadm]
    exact ⟨_, stateOf_Reserve_same rl apiKey targetEndpoint _, rfl, rfl⟩
  · rw [if_neg hadm] at hallowed
    simp at hallowed

/-- The admitted call in the arithmetic of the source on the sample limiter: 5 used, 5
more admitted. -/
theorem Reserve_admitted_post_witness :
    (sampleLimiter.stateOf "API_KEY_1" "/test" = some sampleState ∧
      (sampleLimiter.Reserve 1 2 "client1" 50 5 "API_KEY_1" "/test").2.Allowed = true) ∧
    ∃ after : EndpointState,
      (sampleLimiter.Reserve 1 2 "client1" 50 5 "API_KEY_1" "/test").1.stateOf
          "API_KEY_1" "/test" = some after ∧
      after.RequestCount = intAdd (resetCount sampleState 1) 5 ∧
      (sampleLimiter.Reserve 1 2 "client1" 50 5 "API_KEY_1" "/test").2 =
        { Allowed := true
          ReservedTokens := 50
          ReservedRequests := 5
          RemainingTokens := intSub sampleState.TPM 50
          RemainingRequests := intSub sampleState.RPM after.RequestCount
          TargetEndpointPath := "/test" } :=
  ⟨⟨by decide, by decide⟩,
    Reserve_admitted_post sampleLimiter 1 2 "client1" 50 5 "API_KEY_1" "/test" sampleState
      (by decide) (by decide)⟩

/-- The admitted call over the integers, where the code delivers it: when the sum of the
post-reset count and `requests` and the two differences fit an `int`, an admitted call
stores the mathematical sum and returns `TPM - tokens` and `RPM - RequestCount`. -/
theorem Reserve_admitted_post_of_fit (rl : RateLimiter) (now stamp : Int) (clientID : String)
    (tokens requests : Int) (apiKey targetEndpoint : String) (state : EndpointState)
    (h : rl.stateOf apiKey targetEndpoint = some state)
    (hsum : isInt (resetCount state now + requests))
    (htokens : isInt (state.TPM - tokens))
    (hrequests : isInt (state.RPM - (resetCount state now + requests)))
    (hallowed :
      (rl.Reserve now stamp clientID tokens requests apiKey targetEndpoint).2.Allowed = true) :
    ∃ after : EndpointState,
      (rl.Reserve now stamp clientID tokens requests apiKey targetEndpoint).1.stateOf
          apiKey targetEndpoint = some after ∧
      after.RequestCount = resetCount state now + requests ∧
      (rl.Reserve now stamp clientID tokens requests apiKey targetEndpoint).2 =
        { Allowed := true
          ReservedTokens := tokens
          ReservedRequests := requests
          RemainingTokens := state.TPM - tokens
          RemainingRequests := state.RPM - after.RequestCount
          TargetEndpointPath := targetEndpoint } := by
  have hadd : intAdd (resetCount state now) requests = resetCount state now + requests :=
    intWrap_of_isInt _ hsum
  have hsubT : intSub state.TPM tokens = state.TPM - tokens := intWrap_of_isInt _ htokens
  have hsubR : intSub state.RPM (resetCount state now + requests) =
      state.RPM - (resetCount state now + requests) := intWrap_of_isInt _ hrequests
  rw [Reserve_of_state rl now stamp clientID tokens requests apiKey targetEndpoint state h,
    hadd] at hallowed ⊢
  by_cases hadm : resetCount state now + requests ≤ state.RPM ∧ tokens ≤ state.TPM
  · rw [if_pos hadm]
    refine ⟨_, stateOf_Reserve_same rl apiKey targetEndpoint _, rfl, ?_⟩
    simp only [hsubT, hsubR]
  · rw [if_neg hadm] at hallowed
    simp at hallowed

/-- C3, evaluated at a failing input. On `sampleState` (post-reset count 5, rpm 10,
tpm 100) the admitted call `Reserve(tokens=0, requests=2^63-1)` stores
`RequestCount = -2^63 + 4`, not the count plus `requests`, which is `2^63 + 4`, and returns
`RemainingRequests = -2^63 + 6`, not rpm minus the stored count, which is `2^63 + 6`. -/
theorem Reserve_admitted_count_wraps :
    (sampleLimiter.stateOf "API_KEY_1" "/test" = some sampleState ∧
      resetCount sampleState 1 = 5 ∧ sampleState.RPM = 10) ∧
    (sampleLimiter.Reserve 1 2 "test-client" 0 9223372036854775807 "API_KEY_1"
        "/test").2.Allowed = true ∧
    (((sampleLimiter.Reserve 1 2 "test-client" 0 9223372036854775807 "API_KEY_1"
        "/test").1.stateOf "API_KEY_1" "/test").map EndpointState.RequestCount =
        some (-9223372036854775804) ∧
      resetCount sampleState 1 + 9223372036854775807 = 9223372036854775812) ∧
    ((sampleLimiter.Reserve 1 2 "test-client" 0 9223372036854775807 "API_KEY_1"
        "/test").2.RemainingRequests = -9223372036854775802 ∧
      sampleState.RPM - (-9223372036854775804) = 9223372036854775814) := by
  decide

/-! ## C4: postcondition of a rejected call -/

/-- C5. For a configured identity whose `LastRequest` lies 60 seconds or more before the
call (boundary included), the count is reset to 0 before the admission check whatever it
was: the decision is the one for count 0 and the stored count afterwards is `requests` on
admission and 0 on rejection; so every such call with `requests ≤ RPM` and `tokens ≤ TPM`
is admitted, returns `RemainingRequests = RPM - requests` and leaves `RequestCount =
requests`. With less than 60 seconds elapsed the decision and the count afterwards are
those for the stored count. -/
theorem Reserve_window_reset (rl : RateLimiter) (now stamp : Int) (clientID : String)
    (tokens requests : Int) (apiKey targetEndpoint : String) (state : EndpointState)
    (h : rl.stateOf apiKey targetEndpoint = some state) :
    (now - state.LastRequest ≥ Minute →
      ((rl.Reserve now stamp clientID tokens requests apiKey targetEndpoint).2.Allowed = true ↔
          intAdd 0 requests ≤ state.RPM ∧ tokens ≤ state.TPM) ∧
      (∃ after : EndpointState,
        (rl.Reserve now stamp clientID tokens requests apiKey targetEndpoint).1.stateOf
            apiKey targetEndpoint = some after ∧
        after.RequestCount =
          if (rl.Reserve now stamp clientID tokens requests apiKey targetEndpoint).2.Allowed
          then intAdd 0 requests else 0) ∧
      (isInt requests → requests ≤ state.RPM → tokens ≤ state.TPM →
        (rl.Reserve now stamp clientID tokens requests apiKey targetEndpoint).2.Allowed = true ∧
        (rl.Reserve now stamp clientID tokens requests apiKey
            targetEndpoint).2.RemainingRequests = intSub state.RPM requests ∧
        (0 ≤ requests → isInt state.RPM →
          (rl.Reserve now stamp clientID tokens requests apiKey
              targetEndpoint).2.RemainingRequests = state.RPM - requests) ∧
        ∃ after : EndpointState,
          (rl.Reserve now stamp clientID tokens requests apiKey targetEndpoint).1.stateOf
              apiKey targetEndpoint = some after ∧
          after.RequestCount = requests)) ∧
    (now - state.LastRequest < Minute →
      ((rl.Reserve now stamp clientID tokens requests apiKey targetEndpoint).2.Allowed = true ↔
          intAdd state.RequestCount requests ≤ state.RPM ∧ tokens ≤ state.TPM) ∧
      ∃ after : EndpointState,
        (rl.Reserve now stamp clientID tokens requests apiKey targetEndpoint).1.stateOf
            apiKey targetEndpoint = some after ∧
        after.RequestCount =
          if (rl.Reserve now stamp clientID tokens requests apiKey targetEndpoint).2.Allowed
          then intAdd state.RequestCount requests else state.RequestCount) := by
  have hstate :
      ∃ after : EndpointState,
        (rl.Reserve now stamp clientID tokens requests apiKey targetEndpoint).1.stateOf
            apiKey targetEndpoint = some after ∧
        after.RequestCount =
          if (rl.Reserve now stamp clientID tokens requests apiKey targetEndpoint).2.Allowed
          then intAdd (resetCount state now) requests else resetCount state now := by
    rw [Reserve_of_state rl now stamp clientID tokens requests apiKey targetEndpoint state h]
    by_cases hadm : intAdd (resetCount state now) requests ≤ state.RPM ∧ tokens ≤ state.TPM
    · rw [if_pos hadm]
      exact ⟨_, stateOf_Reserve_same rl apiKey targetEndpoint _, by simp⟩
    · rw [if_neg hadm]
      exact ⟨_, stateOf_Reserve_same rl apiKey targetEndpoint _, by simp⟩
  have hiff :
      (rl.Reserve now stamp clientID tokens requests apiKey targetEndpoint).2.Allowed = true ↔
        intAdd (resetCount state now) requests ≤ state.RPM ∧ tokens ≤ state.TPM := by
    rw [Reserve_of_state rl now stamp clientID tokens requests apiKey targetEndpoint state h]
    by_cases hadm : intAdd (resetCount state now) requests ≤ state.RPM ∧ tokens ≤ state.TPM
    · simp [hadm]
    · simp [hadm]
  constructor
  · intro hexp
    have hzero : resetCount state now = 0 := by simp [resetCount, hexp]
    rw [hzero] at hstate hiff
    refine ⟨hiff, hstate, ?_⟩
    intro hreq hrpm htpm
    have hsum : intAdd 0 requests = requests := intAdd_zero_left requests hreq
    have hallowed :
        (rl.Reserve now stamp clientID tokens requests apiKey targetEndpoint).2.Allowed
          = true := by
      rw [hiff, hsum]
      exact ⟨hrpm, htpm⟩
    have hrem :
        (rl.Reserve now stamp clientID tokens requests apiKey
            targetEndpoint).2.RemainingRequests = intSub state.RPM requests := by
      rw [Reserve_of_state rl now stamp clientID tokens requests apiKey targetEndpoint state h,
        hzero, hsum, if_pos ⟨hrpm, htpm⟩]
    refine ⟨hallowed, hrem, ?_, ?_⟩
    · intro hnonneg hint
      rw [hrem]
      unfold intSub
      apply intWrap_of_isInt
      unfold isInt at hint hreq ⊢
      omega
    · obtain ⟨after, hafter, hcount⟩ := hstate
      refine ⟨after, hafter, ?_⟩
      rw [hcount, hallowed, hsum]
      rfl
  · intro hfresh
    have hnot : ¬ (now - state.LastRequest ≥ Minute) := by omega
    have hsame : resetCount state now = state.RequestCount := by simp [resetCount, hnot]
    rw [hsame] at hstate hiff
    exact ⟨hiff, hstate⟩

/-- Instance of C5: the sample state (5 of 10 used) two minutes after its window start
admits one request with 9 remaining, and one second after its window start still counts
the 5 requests. -/
theorem Reserve_window_reset_witness :
    sampleLimiter.stateOf "API_KEY_1" "/test" = some sampleState ∧
    (120000000000 - sampleState.LastRequest ≥ Minute ∧
      (sampleLimiter.Reserve 120000000000 120000000001 "client1" 10 1 "API_KEY_1"
          "/test").2.Allowed = true ∧
      (sampleLimiter.Reserve 120000000000 120000000001 "client1" 10 1 "API_KEY_1"
          "/test").2.RemainingRequests = 9 ∧
      ∃ after : EndpointState,
        (sampleLimiter.Reserve 120000000000 120000000001 "client1" 10 1 "API_KEY_1"
            "/test").1.stateOf "API_KEY_1" "/test" = some after ∧
        after.RequestCount = 1) ∧
    (1000000000 - sampleState.LastRequest < Minute ∧
      ((sampleLimiter.Reserve 1000000000 1000000001 "client1" 10 6 "API_KEY_1"
          "/test").2.Allowed = true ↔
        intAdd sampleState.RequestCount 6 ≤ sampleState.RPM ∧ 10 ≤ sampleState.TPM)) := by
  have hlookup : sampleLimiter.stateOf "API_KEY_1" "/test" = some sampleState := by decide
  have hexp : (120000000000 : Int) - sampleState.LastRequest ≥ Minute := by decide
  have hfresh : (1000000000 : Int) - sampleState.LastRequest < Minute := by decide
  have hreset :=
    ((Reserve_window_reset sampleLimiter 120000000000 120000000001 "client1" 10 1
      "API_KEY_1" "/test" sampleState hlookup).1 hexp).2.2 (by decide) (by decide) (by decide)
  have hkeep :=
    ((Reserve_window_reset sampleLimiter 1000000000 1000000001 "client1" 10 6
      "API_KEY_1" "/test" sampleState hlookup).2 hfresh).1
  exact ⟨hlookup, ⟨hexp, hreset.1, hreset.2.2.1 (by decide) (by decide), hreset.2.2.2⟩,
    hfresh, hkeep⟩

/-! ## C6: the quota invariant -/

/-- One step of the quota invariant, under the bound that keeps the sum of the admission
check inside the range of `int`: from `0 ≤ RequestCount ≤ RPM`, a call with
`0 ≤ requests` and `RPM + requests ≤ 2^63 - 1` leaves `0 ≤ RequestCount ≤ RPM`. -/
theorem Reserve_count_bounds (rl : RateLimiter) (now stamp : Int) (clientID : String)
    (tokens requests : Int) (apiKey targetEndpoint : String) (state : EndpointState)
    (h : rl.stateOf apiKey targetEndpoint = some state)
    (hlow : 0 ≤ state.RequestCount) (hhigh : state.RequestCount ≤ state.RPM)
    (hreq : 0 ≤ requests) (hfit : state.RPM + requests ≤ 9223372036854775807) :
    ∃ after : EndpointState,
      (rl.Reserve now stamp clientID tokens requests apiKey targetEndpoint).1.stateOf
          apiKey targetEndpoint = some after ∧
      after.RPM = state.RPM ∧ 0 ≤ after.RequestCount ∧ after.RequestCount ≤ after.RPM := by
  have hcount : 0 ≤ resetCount state now ∧ resetCount state now ≤ state.RPM := by
    unfold resetCount
    split_ifs <;> omega
  have hsum : intAdd (resetCount state now) requests = resetCount state now + requests := by
    unfold intAdd
    apply intWrap_of_isInt
    unfold isInt
    omega
  rw [Reserve_of_state rl now stamp clientID tokens requests apiKey targetEndpoint state h]
  by_cases hadm : intAdd (resetCount state now) requests ≤ state.RPM ∧ tokens ≤ state.TPM
  · rw [if_pos hadm]
    refine ⟨_, stateOf_Reserve_same rl apiKey targetEndpoint _, rfl, ?_, hadm.1⟩
    show 0 ≤ intAdd (resetCount state now) requests
    omega
  · rw [if_neg hadm]
    exact ⟨_, stateOf_Reserve_same rl apiKey targetEndpoint _, rfl, hcount.1, hcount.2⟩

/-- C6, evaluated at a failing input. On the limiter built from `sampleConfig` (rpm 10),
the two calls of `wrapCalls`, both with non-negative tokens and requests at the same clock
reading, are both admitted: the admission sum `1 + (2^63 - 1)` wraps to `-2^63`, the
stored `RequestCount` becomes negative and the admitted requests exceed rpm. -/
theorem run_wrapCalls_breaks_invariant :
    ((New sampleConfig zeroClock).run wrapCalls).2.map Reservation.Allowed = [true, true] ∧
      (((New sampleConfig zeroClock).run wrapCalls).1.stateOf "API_KEY_1" "/test").map
          EndpointState.RequestCount = some (-9223372036854775808) ∧
      (wrapCalls.map Call.requests).sum > 10 := by
  decide

/-! ## C7: the three-step scenario -/

/-- C7, refuted as stated. On the limiter built from `sampleConfig` (rpm 10, tpm 100,
fresh window) the third call of `scenarioCalls`, `Reserve(tokens=10, requests=6)` after 5
admitted requests, is rejected with `RemainingRequests = 5`, not `-1`. -/
theorem scenario_third_call_remaining :
    ((New sampleConfig zeroClock).run scenarioCalls).2 =
        [{ Allowed := true, ReservedTokens := 50, ReservedRequests := 5,
           RemainingTokens := 50, RemainingRequests := 5, TargetEndpointPath := "/test" },
         { Allowed := false, ReservedTokens := 0, ReservedRequests := 0,
           RemainingTokens := -1, RemainingRequests := 5, TargetEndpointPath := "" },
         { Allowed := false, ReservedTokens := 0, ReservedRequests := 0,
           RemainingTokens := 90, RemainingRequests := 5, TargetEndpointPath := "" }] ∧
      ¬ (((New sampleConfig zeroClock).run scenarioCalls).2.map
            Reservation.RemainingRequests = [5, 5, -1]) := by
  decide

/-- C7, amended. With a configured identity of quota rpm 10, tpm 100 and count 0, and no
window expiry before the second and third call, `Reserve(tokens=50, requests=5)` returns
`Allowed = true`, `RemainingRequests = 5`, `RemainingTokens = 50`; then
`Reserve(tokens=101, requests=1)` returns `Allowed = false` with `RemainingTokens = -1`;
then `Reserve(tokens=10, requests=6)` returns `Allowed = false` with
`RemainingRequests = 5`, the quota minus the 5 requests counted so far. -/
theorem scenario_three_calls (rl : RateLimiter) (apiKey targetEndpoint : String)
    (state : EndpointState) (now1 stamp1 now2 stamp2 now3 stamp3 : Int)
    (id1 id2 id3 : String)
    (h : rl.stateOf apiKey targetEndpoint = some state)
    (hrpm : state.RPM = 10) (htpm : state.TPM = 100) (hcount : state.RequestCount = 0)
    (hfresh2 : now2 - stamp1 < Minute) (hfresh3 : now3 - stamp1 < Minute) :
    ((rl.Reserve now1 stamp1 id1 50 5 apiKey targetEndpoint).2.Allowed = true ∧
      (rl.Reserve now1 stamp1 id1 50 5 apiKey targetEndpoint).2.RemainingRequests = 5 ∧
      (rl.Reserve now1 stamp1 id1 50 5 apiKey targetEndpoint).2.RemainingTokens = 50) ∧
    ((((rl.Reserve now1 stamp1 id1 50 5 apiKey targetEndpoint).1.Reserve now2 stamp2 id2
        101 1 apiKey targetEndpoint).2.Allowed = false) ∧
      (((rl.Reserve now1 stamp1 id1 50 5 apiKey targetEndpoint).1.Reserve now2 stamp2 id2
        101 1 apiKey targetEndpoint).2.RemainingTokens = -1)) ∧
    (((((rl.Reserve now1 stamp1 id1 50 5 apiKey targetEndpoint).1.Reserve now2 stamp2 id2
        101 1 apiKey targetEndpoint).1.Reserve now3 stamp3 id3 10 6 apiKey
          targetEndpoint).2.Allowed = false) ∧
      ((((rl.Reserve now1 stamp1 id1 50 5 apiKey targetEndpoint).1.Reserve now2 stamp2 id2
        101 1 apiKey targetEndpoint).1.Reserve now3 stamp3 id3 10 6 apiKey
          targetEndpoint).2.RemainingRequests = 5)) := by
  have e1 := Reserve_of_state rl now1 stamp1 id1 50 5 apiKey targetEndpoint state h
  rw [resetCount_of_zero state now1 hcount, hrpm, htpm, if_pos (by decide)] at e1
  rw [e1]
  have h1 := stateOf_Reserve_same rl apiKey targetEndpoint
    { state with RequestCount := intAdd 0 5, LastRequest := stamp1 }
  have e2 := Reserve_of_state _ now2 stamp2 id2 101 1 apiKey targetEndpoint _ h1
  rw [resetCount_of_fresh _ now2 hfresh2] at e2
  simp only [hrpm, htpm] at e2
  rw [if_neg (by decide)] at e2
  rw [e2]
  have h2 := stateOf_Reserve_same
    { apiKeyLimits := mapSet rl.apiKeyLimits (limitKey apiKey targetEndpoint)
        { state with RequestCount := intAdd 0 5, LastRequest := stamp1 } }
    apiKey targetEndpoint
    { state with RequestCount := intAdd 0 5, LastRequest := stamp1 }
  have e3 := Reserve_of_state _ now3 stamp3 id3 10 6 apiKey targetEndpoint _ h2
  rw [resetCount_of_fresh _ now3 hfresh3] at e3
  simp only [hrpm, htpm] at e3
  rw [if_neg (by decide)] at e3
  rw [e3]
  have hrem : intSub 10 (intAdd 0 5) = 5 := by decide
  have htok1 : intSub 100 50 = 50 := by decide
  have htok2 : intSub 100 101 = -1 := by decide
  exact ⟨⟨rfl, hrem, htok1⟩, ⟨rfl, htok2⟩, rfl, hrem⟩

/-- Instance of the amended C7 on the limiter built from `sampleConfig`, calls one second
apart. -/
theorem scenario_three_calls_witness :
    ((New sampleConfig zeroClock).stateOf "API_KEY_1" "/test" = some freshState ∧
      (1000000000 : Int) - 1 < Minute ∧ (2000000000 : Int) - 1 < Minute) ∧
    (((((New sampleConfig zeroClock).Reserve 0 1 "client1" 50 5 "API_KEY_1"
        "/test").1.Reserve 1000000000 1000000001 "client1" 101 1 "API_KEY_1"
          "/test").1.Reserve 2000000000 2000000001 "client1" 10 6 "API_KEY_1"
            "/test").2.Allowed = false ∧
      ((((New sampleConfig zeroClock).Reserve 0 1 "client1" 50 5 "API_KEY_1"
        "/test").1.Reserve 1000000000 1000000001 "client1" 101 1 "API_KEY_1"
          "/test").1.Reserve 2000000000 2000000001 "client1" 10 6 "API_KEY_1"
            "/test").2.RemainingRequests = 5) :=
  ⟨⟨by decide, by decide, by decide⟩,
    (scenario_three_calls (New sampleConfig zeroClock) "API_KEY_1" "/test" freshState
      0 1 1000000000 1000000001 2000000000 2000000001 "client1" "client1" "client1"
      (by decide) rfl rfl rfl (by decide) (by decide)).2.2⟩

/-! ## C8: exactly N admissions -/

/-- C9, refuted as stated. On the sample state (window stamped at 0): a call admitted one
nanosecond into the unexpired window moves `LastRequest` to the clock reading of the
admission, and a call rejected two minutes after the window start, when the window has
expired, leaves `LastRequest` at 0. -/
theorem admission_moves_LastRequest :
    ((1 : Int) - sampleState.LastRequest < Minute ∧
      (sampleLimiter.Reserve 1 2 "client1" 50 5 "API_KEY_1" "/test").2.Allowed = true ∧
      ((sampleLimiter.Reserve 1 2 "client1" 50 5 "API_KEY_1" "/test").1.stateOf
          "API_KEY_1" "/test").map EndpointState.LastRequest = some 2 ∧
      sampleState.LastRequest ≠ 2) ∧
    ((120000000000 : Int) - sampleState.LastRequest ≥ Minute ∧
      (sampleLimiter.Reserve 120000000000 120000000001 "client1" 101 1 "API_KEY_1"
          "/test").2.Allowed = false ∧
      ((sampleLimiter.Reserve 120000000000 120000000001 "client1" 101 1 "API_KEY_1"
          "/test").1.stateOf "API_KEY_1" "/test").map EndpointState.LastRequest = some 0) := by
  decide

/-- C9, amended. `LastRequest` of a configured identity is moved only by admission: after
a `Reserve` call it is the clock reading taken at the admission if the call was admitted,
whether or not the window had expired, and it is unchanged if the call was rejected, also
when the window had expired. -/
theorem Reserve_LastRequest (rl : RateLimiter) (now stamp : Int) (clientID : String)
    (tokens requests : Int) (apiKey targetEndpoint : String) (state : EndpointState)
    (h : rl.stateOf apiKey targetEndpoint = some state) :
    ∃ after : EndpointState,
      (rl.Reserve now stamp clientID tokens requests apiKey targetEndpoint).1.stateOf
          apiKey targetEndpoint = some after ∧
      after.LastRequest =
        if (rl.Reserve now stamp clientID tokens requests apiKey targetEndpoint).2.Allowed
        then stamp else state.LastRequest := by
  rw [Reserve_of_state rl now stamp clientID tokens requests apiKey targetEndpoint state h]
  by_cases hadm : intAdd (resetCount state now) requests ≤ state.RPM ∧ tokens ≤ state.TPM
  · rw [if_pos hadm]
    exact ⟨_, stateOf_Reserve_same rl apiKey targetEndpoint _, by simp⟩
  · rw [if_neg hadm]
    exact ⟨_, stateOf_Reserve_same rl apiKey targetEndpoint _, by simp⟩

/-- Instance of the amended C9: an admitted call on the sample limiter, read at 1 and
stamped at 2. -/
theorem Reserve_LastRequest_witness :
    sampleLimiter.stateOf "API_KEY_1" "/test" = some sampleState ∧
    ∃ after : EndpointState,
      (sampleLimiter.Reserve 1 2 "client1" 50 5 "API_KEY_1" "/test").1.stateOf
          "API_KEY_1" "/test" = some after ∧
      after.LastRequest =
        if (sampleLimiter.Reserve 1 2 "client1" 50 5 "API_KEY_1" "/test").2.Allowed
        then 2 else sampleState.LastRequest :=
  ⟨by decide,
    Reserve_LastRequest sampleLimiter 1 2 "client1" 50 5 "API_KEY_1" "/test" sampleState
      (by decide)⟩

/-! ## C10: isolation of identities -/

/-- The part of isolation that the code does deliver: a call for one pair leaves the
state stored under every other lookup key as it was. -/
theorem Reserve_other_key_unchanged (rl : RateLimiter) (now stamp : Int) (clientID : String)
    (tokens requests : Int) (apiKey targetEndpoint otherKey otherPath : String)
    (hkeys : limitKey otherKey otherPath ≠ limitKey apiKey targetEndpoint) :
    (rl.Reserve now stamp clientID tokens requests apiKey targetEndpoint).1.stateOf
        otherKey otherPath = rl.stateOf otherKey otherPath := by
  cases h : rl.stateOf apiKey targetEndpoint with
  | none =>
      rw [Reserve_of_none rl now stamp clientID tokens requests apiKey targetEndpoint h]
  | some state =>
      rw [Reserve_of_state rl now stamp clientID tokens requests apiKey targetEndpoint state h]
      by_cases hadm : intAdd (resetCount state now) requests ≤ state.RPM ∧ tokens ≤ state.TPM
      · rw [if_pos hadm]
        exact mapSet_other _ _ _ _ hkeys
      · rw [if_neg hadm]
        exact mapSet_other _ _ _ _ hkeys

/-- C10, evaluated at a failing input. `sharedKeyConfig` configures the distinct
identities `hyphenPair` (rpm 10, tpm 100) and `foreignPair` (rpm 5, tpm 50). They build the
same lookup key, so `New` keeps one state, the later one; a call for `hyphenPair` with 6
requests is rejected against rpm 5, and an admitted call for `hyphenPair` moves the
`RequestCount` and `LastRequest` stored for `foreignPair`. -/
theorem shared_key_shares_state :
    hyphenPair ≠ foreignPair ∧
    hyphenPair ∈ configured sharedKeyConfig ∧ foreignPair ∈ configured sharedKeyConfig ∧
    limitKey hyphenPair.1 hyphenPair.2 = limitKey foreignPair.1 foreignPair.2 ∧
    (New sharedKeyConfig zeroClock).stateOf hyphenPair.1 hyphenPair.2 =
      some { Path := foreignPair.2, RPM := 5, TPM := 50, LastRequest := 0,
             RequestCount := 0 } ∧
    ((New sharedKeyConfig zeroClock).Reserve 0 7 "client1" 10 6 hyphenPair.1
        hyphenPair.2).2.Allowed = false ∧
    (New sharedKeyConfig zeroClock).stateOf foreignPair.1 foreignPair.2 =
      some { Path := foreignPair.2, RPM := 5, TPM := 50, LastRequest := 0,
             RequestCount := 0 } ∧
    ((New sharedKeyConfig zeroClock).Reserve 0 7 "client1" 10 1 hyphenPair.1
        hyphenPair.2).1.stateOf foreignPair.1 foreignPair.2 =
      some { Path := foreignPair.2, RPM := 5, TPM := 50, LastRequest := 7,
             RequestCount := 1 } := by
  decide

/-! ## C11: construction of the catalog -/

/-- One assignment of the loop of `New`, seen at the lookup key `k`. -/
theorem New.endpoints_quota (clock : Nat → Int) (apiKey : String) (k : String) :
    ∀ (endpoints : List EndpointConfig) (acc : Nat × (String → Option EndpointState)),
      ((New.endpoints clock apiKey endpoints acc).2 k).map quotaOf =
        (endpoints.map (fun e => (apiKey, e))).foldl
          (fun cur x => if k = limitKey x.1 x.2.Path then some (freshQuota x.2) else cur)
          ((acc.2 k).map quotaOf) := by
  intro endpoints
  induction endpoints with
  | nil => intro acc; rfl
  | cons e rest ih =>
      intro acc
      rw [New.endpoints, ih]
      simp only [List.map_cons, List.foldl_cons]
      congr 1
      by_cases hk : k = limitKey apiKey e.Path
      · simp [mapSet, hk, quotaOf, freshQuota]
      · simp [mapSet, hk]

/-- The map built by the two loops of `New`, seen at the lookup key `k`: a left-to-right
pass over `entries` in which every entry with key `k` replaces what was there. -/
theorem New.rateLimits_quota (clock : Nat → Int) (k : String) :
    ∀ (rateLimits : List RateLimit) (acc : Nat × (String → Option EndpointState)),
      ((New.rateLimits clock rateLimits acc).2 k).map quotaOf =
        (entries rateLimits).foldl
          (fun cur x => if k = limitKey x.1 x.2.Path then some (freshQuota x.2) else cur)
          ((acc.2 k).map quotaOf) := by
  intro rateLimits
  induction rateLimits with
  | nil => intro acc; rfl
  | cons r rest ih =>
      intro acc
      rw [New.rateLimits, ih, New.endpoints_quota]
      simp only [entries, List.flatMap_cons, List.foldl_append]

/-- A pass that overwrites on every entry with the wanted identity ends on the last such
entry, provided the entries with the lookup key of the identity are those of the identity. -/
theorem foldl_last_occurrence (apiKey path : String) :
    ∀ (l : List (String × EndpointConfig)),
      (∀ x ∈ l, limitKey apiKey path = limitKey x.1 x.2.Path → x.1 = apiKey ∧ x.2.Path = path) →
      l.foldl
          (fun cur x =>
            if limitKey apiKey path = limitKey x.1 x.2.Path then some (freshQuota x.2) else cur)
          none =
        ((l.reverse.find? (fun x => decide (x.1 = apiKey ∧ x.2.Path = path))).map
          Prod.snd).map freshQuota := by
  intro l
  induction l using List.reverseRecOn with
  | nil => intro _; rfl
  | append_singleton l x ih =>
      intro hkeys
      have hl : ∀ y ∈ l, limitKey apiKey path = limitKey y.1 y.2.Path →
          y.1 = apiKey ∧ y.2.Path = path :=
        fun y hy => hkeys y (List.mem_append_left _ hy)
      have hx := hkeys x (List.mem_append_right _ (List.mem_singleton_self x))
      rw [List.foldl_append, ih hl, List.reverse_append]
      simp only [List.foldl_cons, List.foldl_nil, List.reverse_cons, List.reverse_nil,
        List.nil_append, List.singleton_append, List.find?_cons]
      by_cases hid : x.1 = apiKey ∧ x.2.Path = path
      · have hkey : limitKey apiKey path = limitKey x.1 x.2.Path := by
          rw [hid.1, hid.2]
        simp [hid, hkey]
      · have hkey : ¬ limitKey apiKey path = limitKey x.1 x.2.Path := fun hk => hid (hx hk)
        simp [hid, hkey]

/-- The part of last-write-wins that the code does deliver: when the configured entries
with the lookup key of `(apiKey, path)` are all entries of that identity, `New` stores for
it the path, RPM and TPM of its last occurrence with count 0, and stores nothing if it
does not occur. -/
theorem New_last_write_wins_of_own_key (rateLimits : List RateLimit) (clock : Nat → Int)
    (apiKey path : String)
    (hkeys : ∀ x ∈ entries rateLimits,
      limitKey apiKey path = limitKey x.1 x.2.Path → x.1 = apiKey ∧ x.2.Path = path) :
    ((New rateLimits clock).stateOf apiKey path).map quotaOf =
      (lastOccurrence rateLimits apiKey path).map freshQuota := by
  unfold RateLimiter.stateOf New lastOccurrence
  rw [New.rateLimits_quota clock (limitKey apiKey path) rateLimits (0, fun _ => none)]
  exact foldl_last_occurrence apiKey path (entries rateLimits) hkeys

/-- C11, evaluated at a failing input. In `sharedKeyConfig` the identity `hyphenPair`
occurs once, with path `/test`, rpm 10 and tpm 100, but `New` stores for it the path,
rpm 5 and tpm 50 of the later entry of the other identity `foreignPair`; and in
`hyphenConfig` the identity `foreignPair` does not occur, yet `New` has an entry for it. -/
theorem New_overwrites_other_identity :
    (lastOccurrence sharedKeyConfig hyphenPair.1 hyphenPair.2 =
        some { Path := "/test", RPM := 10, TPM := 100 } ∧
      ((New sharedKeyConfig zeroClock).stateOf hyphenPair.1 hyphenPair.2).map quotaOf =
        some (foreignPair.2, 5, 50, 0)) ∧
    (lastOccurrence hyphenConfig foreignPair.1 foreignPair.2 = none ∧
      ((New hyphenConfig zeroClock).stateOf foreignPair.1 foreignPair.2).map quotaOf =
        some ("/test", 10, 100, 0)) := by
  decide

/-! ## C12: the HTTP mapping of `Handle` -/

/-- C12. For every parsed request that passes validation, `Handle` answers with status
200 exactly when the reservation returned by `Reserve` has `Allowed = true` and with
status 429 exactly when it has `Allowed = false`; the body is the JSON document of a
`ReserveResponse` whose envelope is `(200, "Success")` in the first case and
`(429, "Rate limit exceeded")` in the second, and whose data carry the six fields of the
reservation unchanged. -/
theorem Handle_status_iff_allowed (h : ReserveHandler) (request : ReserveRequest)
    (now stamp : Int) (hvalid : h.validateRequest request = none) :
    (((h.Handle (some request) now stamp).2.status = 200 ↔
        (h.limiter.Reserve now stamp request.ClientID request.Tokens request.Requests
          request.APIKey request.TargetEndpoint).2.Allowed = true) ∧
      ((h.Handle (some request) now stamp).2.status = 429 ↔
        (h.limiter.Reserve now stamp request.ClientID request.Tokens request.Requests
          request.APIKey request.TargetEndpoint).2.Allowed = false)) ∧
    ∃ response : ReserveResponse,
      (h.Handle (some request) now stamp).2.body = Body.json (Payload.reserve response) ∧
      response.Status =
        (if (h.limiter.Reserve now stamp request.ClientID request.Tokens request.Requests
            request.APIKey request.TargetEndpoint).2.Allowed
          then { Code := 200, Message := "Success" }
          else { Code := 429, Message := "Rate limit exceeded" }) ∧
      response.Data.Allowed =
        (h.limiter.Reserve now stamp request.ClientID request.Tokens request.Requests
          request.APIKey request.TargetEndpoint).2.Allowed ∧
      response.Data.ReservedTokens =
        (h.limiter.Reserve now stamp request.ClientID request.Tokens request.Requests
          request.APIKey request.TargetEndpoint).2.ReservedTokens ∧
      response.Data.ReservedRequests =
        (h.limiter.Reserve now stamp request.ClientID request.Tokens request.Requests
          request.APIKey request.TargetEndpoint).2.ReservedRequests ∧
      response.Data.RemainingTokens =
        (h.limiter.Reserve now stamp request.ClientID request.Tokens request.Requests
          request.APIKey request.TargetEndpoint).2.RemainingTokens ∧
      response.Data.RemainingRequests =
        (h.limiter.Reserve now stamp request.ClientID request.Tokens request.Requests
          request.APIKey request.TargetEndpoint).2.RemainingRequests ∧
      response.Data.TargetEndpointPath =
        (h.limiter.Reserve now stamp request.ClientID request.Tokens request.Requests
          request.APIKey request.TargetEndpoint).2.TargetEndpointPath := by
  unfold ReserveHandler.Handle
  simp only [hvalid]
  cases hallowed :
    (h.limiter.Reserve now stamp request.ClientID request.Tokens request.Requests
      request.APIKey request.TargetEndpoint).2.Allowed with
  | false =>
      refine ⟨⟨?_, ?_⟩, _, rfl, ?_, ?_, rfl, rfl, rfl, rfl, rfl⟩
      · simp [sendJSONResponse, marshalIndent, StatusTooManyRequests]
      · simp [sendJSONResponse, marshalIndent, StatusTooManyRequests]
      · simp [StatusTooManyRequests]
      · simp [hallowed]
  | true =>
      refine ⟨⟨?_, ?_⟩, _, rfl, ?_, ?_, rfl, rfl, rfl, rfl, rfl⟩
      · simp [sendJSONResponse, marshalIndent, StatusOK]
      · simp [sendJSONResponse, marshalIndent, StatusOK]
      · simp [StatusOK]
      · simp [hallowed]

/-- Instance of C12: `validRequest` on `sampleHandler` is admitted and answered with 200. -/
theorem Handle_status_iff_allowed_witness :
    sampleHandler.validateRequest validRequest = none ∧
      ((sampleHandler.Handle (some validRequest) 1 2).2.status = 200 ↔
        (sampleHandler.limiter.Reserve 1 2 validRequest.ClientID validRequest.Tokens
          validRequest.Requests validRequest.APIKey validRequest.TargetEndpoint).2.Allowed
            = true) ∧
      (sampleHandler.Handle (some validRequest) 1 2).2 =
        { status := 200
          body := Body.json (Payload.reserve
            { Status := { Code := 200, Message := "Success" }
              Data :=
                { Allowed := true, ReservedTokens := 5, ReservedRequests := 1,
                  RemainingTokens := 95, RemainingRequests := 4,
                  TargetEndpointPath := "/test" } }) } :=
  ⟨by decide,
    (Handle_status_iff_allowed sampleHandler validRequest 1 2 (by decide)).1.1,
    by decide⟩

/-! ## C13: request validation -/

/-- C13. `validateRequest` returns `nil` exactly when `ClientID`, `APIKey` and
`TargetEndpoint` are non-empty and `Tokens` and `Requests` are non-negative; otherwise it
returns the 400 error of the first failing check, in the order `ClientID`, `APIKey`,
`TargetEndpoint`, `Tokens`, `Requests`, so an empty `ClientID` gives "ClientID is
required" whatever the other fields are. `Handle` answers a request that fails validation
with status 400 and that error, giving the handler back as it was, and the one case in
which it calls `Reserve` has non-negative tokens and requests. -/
theorem validateRequest_spec (h : ReserveHandler) (request : ReserveRequest) :
    (h.validateRequest request = none ↔
      request.ClientID ≠ "" ∧ request.APIKey ≠ "" ∧ request.TargetEndpoint ≠ "" ∧
        0 ≤ request.Tokens ∧ 0 ≤ request.Requests) ∧
    (request.ClientID = "" →
      h.validateRequest request =
        some { Code := 400, Message := "ClientID is required" }) ∧
    (request.ClientID ≠ "" → request.APIKey = "" →
      h.validateRequest request =
        some { Code := 400, Message := "APIKey is required" }) ∧
    (request.ClientID ≠ "" → request.APIKey ≠ "" → request.TargetEndpoint = "" →
      h.validateRequest request =
        some { Code := 400, Message := "TargetEndpoint is required" }) ∧
    (request.ClientID ≠ "" → request.APIKey ≠ "" → request.TargetEndpoint ≠ "" →
      request.Tokens < 0 →
      h.validateRequest request =
        some { Code := 400, Message := "Tokens must be non-negative" }) ∧
    (request.ClientID ≠ "" → request.APIKey ≠ "" → request.TargetEndpoint ≠ "" →
      0 ≤ request.Tokens → request.Requests < 0 →
      h.validateRequest request =
        some { Code := 400, Message := "Requests must be non-negative" }) ∧
    (∀ (now stamp : Int) (err : FiberError), h.validateRequest request = some err →
      h.Handle (some request) now stamp =
        (h,
          { status := 400
            body := Body.json (Payload.failure
              { Status := { Code := 400, Message := "Error" }, Error := err.Message }) })) ∧
    (∀ now stamp : Int, h.validateRequest request = none →
      (0 ≤ request.Tokens ∧ 0 ≤ request.Requests) ∧
      (h.Handle (some request) now stamp).1.limiter.apiKeyLimits =
        (h.limiter.Reserve now stamp request.ClientID request.Tokens request.Requests
          request.APIKey request.TargetEndpoint).1.apiKeyLimits) := by
  have hnil : h.validateRequest request = none ↔
      request.ClientID ≠ "" ∧ request.APIKey ≠ "" ∧ request.TargetEndpoint ≠ "" ∧
        0 ≤ request.Tokens ∧ 0 ≤ request.Requests := by
    unfold ReserveHandler.validateRequest
    constructor
    · intro hv
      split_ifs at hv with h1 h2 h3 h4 h5
      exact ⟨h1, h2, h3, by omega, by omega⟩
    · rintro ⟨h1, h2, h3, h4, h5⟩
      have h4n : ¬ request.Tokens < 0 := by omega
      have h5n : ¬ request.Requests < 0 := by omega
      simp [h1, h2, h3, h4n, h5n]
  refine ⟨hnil, ?_, ?_, ?_, ?_, ?_, ?_, ?_⟩
  · intro h1
    simp [ReserveHandler.validateRequest, h1, StatusBadRequest]
  · intro h1 h2
    simp [ReserveHandler.validateRequest, h1, h2, StatusBadRequest]
  · intro h1 h2 h3
    simp [ReserveHandler.validateRequest, h1, h2, h3, StatusBadRequest]
  · intro h1 h2 h3 h4
    simp [ReserveHandler.validateRequest, h1, h2, h3, h4, StatusBadRequest]
  · intro h1 h2 h3 h4 h5
    have h4n : ¬ request.Tokens < 0 := by omega
    simp [ReserveHandler.validateRequest, h1, h2, h3, h4n, h5, StatusBadRequest]
  · intro now stamp err herr
    unfold ReserveHandler.Handle
    simp only [herr]
    rfl
  · intro now stamp hv
    refine ⟨⟨(hnil.1 hv).2.2.2.1, (hnil.1 hv).2.2.2.2⟩, ?_⟩
    unfold ReserveHandler.Handle
    simp only [hv]
    split_ifs <;> rfl

/-- Instances of C13: a request without client ID gets "ClientID is required" although
all its other fields are wrong too, and `Handle` answers a request with negative tokens
with status 400. -/
theorem validateRequest_spec_witness :
    (anonymousRequest.ClientID = "" ∧
      sampleHandler.validateRequest anonymousRequest =
        some { Code := 400, Message := "ClientID is required" }) ∧
    (sampleHandler.validateRequest negativeRequest =
        some { Code := 400, Message := "Tokens must be non-negative" } ∧
      (sampleHandler.Handle (some negativeRequest) 1 2).2 =
        { status := 400
          body := Body.json (Payload.failure
            { Status := { Code := 400, Message := "Error" }
              Error := "Tokens must be non-negative" }) }) ∧
    (sampleHandler.validateRequest validRequest = none ∧
      0 ≤ validRequest.Tokens ∧ 0 ≤ validRequest.Requests) := by
  have hneg : sampleHandler.validateRequest negativeRequest =
      some { Code := 400, Message := "Tokens must be non-negative" } := by decide
  have hvalid : sampleHandler.validateRequest validRequest = none := by decide
  refine ⟨⟨rfl, (validateRequest_spec sampleHandler anonymousRequest).2.1 rfl⟩,
    ⟨hneg, ?_⟩, hvalid, ?_⟩
  · rw [(validateRequest_spec sampleHandler negativeRequest).2.2.2.2.2.2.1 1 2 _ hneg]
  · exact ((validateRequest_spec sampleHandler validRequest).2.2.2.2.2.2.2 1 2 hvalid).1

/-! ## C14: the sum of the admission check -/

/-- When the mathematical sum of a non-negative count and non-negative `requests` fits
an `int`, the sum computed by the admission check is that sum. -/
theorem intAdd_of_fit (count requests : Int) (hcount : 0 ≤ count) (hrequests : 0 ≤ requests)
    (hfit : count + requests ≤ 9223372036854775807) :
    intAdd count requests = count + requests := by
  unfold intAdd
  apply intWrap_of_isInt
  unfold isInt
  omega

/-- C14, evaluated at a failing input. On `sampleState` (count 5 of rpm 10) the request
`hugeRequest` passes validation with `Requests = 2^63 - 1`; the sum of the admission check
is `-2^63 + 4`, not the mathematical sum, so `Handle` answers 200 with `Allowed = true`
although count plus requests exceeds rpm over the integers, and the stored `RequestCount`
is negative afterwards. -/
theorem Handle_admits_by_wrap_around :
    (sampleLimiter.stateOf "API_KEY_1" "/test" = some sampleState ∧
      0 ≤ sampleState.RequestCount ∧ sampleState.RequestCount ≤ sampleState.RPM ∧
      sampleHandler.validateRequest hugeRequest = none) ∧
    (intAdd sampleState.RequestCount hugeRequest.Requests = -9223372036854775804 ∧
      intAdd sampleState.RequestCount hugeRequest.Requests ≠
        sampleState.RequestCount + hugeRequest.Requests) ∧
    ((sampleHandler.Handle (some hugeRequest) 1 2).2.status = 200 ∧
      (sampleLimiter.Reserve 1 2 hugeRequest.ClientID hugeRequest.Tokens hugeRequest.Requests
        hugeRequest.APIKey hugeRequest.TargetEndpoint).2.Allowed = true ∧
      ¬ (sampleState.RequestCount + hugeRequest.Requests ≤ sampleState.RPM)) ∧
    ((sampleHandler.Handle (some hugeRequest) 1 2).1.limiter.stateOf "API_KEY_1" "/test").map
        EndpointState.RequestCount = some (-9223372036854775804) := by
  decide

end ratelimiter
